import Mathlib

/-!
# Verification of the GPU launcher (`src/launcher.py`)

Shallow embedding of the launcher's data model and control flow:

* a `Device` record as parsed from the device-listing command;
* `get_sanitized_name`, the cache-key sanitization (`re.sub('[^a-zA-Z0-9]','_',·)`);
* `get_gpus_from_nvidia_smi`, the inventory probe with its catch-all
  error handling (any failure yields `[]` plus a printed warning);
* `manage_engine`, the engine-cache state machine (Check / Restore /
  Build / Verify / Persist) over an explicit file-system map;
* `run_inference`, the inference invoker (child outcome ignored,
  `KeyboardInterrupt` swallowed);
* `mainRun`, the orchestrator sequencing probe → select → ensure-engine
  → launch, recording exit code, side effects and diagnostics.

File contents are modelled as `String`s; the file system as a partial map
from path to contents. External subprocesses (the build script, the
inference script) are parameters: the build is an arbitrary function from
an environment and a file system to an exit flag and a new file system,
the inference child an arbitrary outcome that the launcher never inspects.
`csv` quoting is not modelled (the probed rows are plain comma-separated
text); Python `int()` is modelled by a decimal parser on the stripped string.
String splitting and stripping are implemented structurally over `List Char`
so that every definition evaluates by kernel reduction on concrete inputs.
-/

/-- Environment of a process: partial map from variable name to value. -/
def Env : Type := String → Option String

/-- File system: partial map from path to file contents (bytes as `String`). -/
def Fs : Type := String → Option String

/-- A probed accelerator device, as built by the inventory probe:
`{"index": int(row[0].strip()), "name": row[1].strip(), "memory": row[2].strip()}`. -/
structure Device where
  index : Int
  name : String
  memory : String
deriving DecidableEq, Repr

/-- `ENGINE_DIR = "./pretrained_weights/tensorrt"`. -/
def ENGINE_DIR : String := "./pretrained_weights/tensorrt"

/-- `ACTIVE_ENGINE_NAME = "unet_work.engine"`. -/
def ACTIVE_ENGINE_NAME : String := "unet_work.engine"

/-- `INFERENCE_SCRIPT = "inference_online.py"`. -/
def INFERENCE_SCRIPT : String := "inference_online.py"

/-- `BUILD_SCRIPT = "torch2trt.py"`. -/
def BUILD_SCRIPT : String := "torch2trt.py"

/-- `os.path.join` for the two-component joins the launcher performs. -/
def pathJoin (a b : String) : String := a ++ "/" ++ b

/-- A character kept verbatim by the sanitizer: matches `[a-zA-Z0-9]`. -/
def isAsciiAlnum (c : Char) : Bool :=
  (('a' ≤ c && c ≤ 'z') || ('A' ≤ c && c ≤ 'Z') || ('0' ≤ c && c ≤ '9'))

/-- One character of `re.sub(r'[^a-zA-Z0-9]', '_', name)`: the pattern matches
single characters, so the substitution acts pointwise. -/
def sanitizeChar (c : Char) : Char := if isAsciiAlnum c then c else '_'

/-- `get_sanitized_name(name)`: replace every non-alphanumeric character by `_`. -/
def get_sanitized_name (name : String) : String :=
  ⟨name.data.map sanitizeChar⟩

/-- The cached-engine file name `f"unet_work_{gpu_name}.engine"`. -/
def cachedEngineFilename (gpu_name : String) : String :=
  "unet_work_" ++ gpu_name ++ ".engine"

/-- `active_engine_path = os.path.join(ENGINE_DIR, ACTIVE_ENGINE_NAME)`. -/
def activeEnginePath : String := pathJoin ENGINE_DIR ACTIVE_ENGINE_NAME

/-- `cached_engine_path = os.path.join(ENGINE_DIR, cached_engine_filename)`. -/
def cachedEnginePath (gpu_name : String) : String :=
  pathJoin ENGINE_DIR (cachedEngineFilename gpu_name)

/-- Split a character list at every occurrence of `sep` (the separator is
dropped; `n` separators yield `n+1` pieces, as Python `str.split(sep)` does). -/
def splitOnChar (sep : Char) : List Char → List (List Char)
  | [] => [[]]
  | c :: rest =>
    if c = sep then [] :: splitOnChar sep rest
    else
      match splitOnChar sep rest with
      | [] => [[c]]
      | h :: t => (c :: h) :: t

/-- Drop whitespace from both ends of a character list (Python `str.strip()`). -/
def trimChars (l : List Char) : List Char :=
  ((l.dropWhile Char.isWhitespace).reverse.dropWhile Char.isWhitespace).reverse

/-- Python `str.strip()`. -/
def pyStrip (s : String) : String := ⟨trimChars s.data⟩

/-- Read a non-empty all-digit character list as a natural number. -/
def digitsToNat : List Char → Option Nat
  | [] => none
  | l => go l 0
where
  /-- Accumulate decimal digits left to right; any non-digit fails. -/
  go : List Char → Nat → Option Nat
  | [], acc => some acc
  | c :: rest, acc =>
    if c.isDigit then go rest (acc * 10 + (c.toNat - 48)) else none

/-- Python `int(s)`: strips surrounding whitespace, then parses an optionally
signed decimal integer; `none` models a raised `ValueError` (digit-group
underscores are not modelled). -/
def pyInt (s : String) : Option Int :=
  match trimChars s.data with
  | '-' :: ds => (digitsToNat ds).map (fun n => -(n : Int))
  | '+' :: ds => (digitsToNat ds).map (fun n => (n : Int))
  | ds => (digitsToNat ds).map (fun n => (n : Int))

/-- Outcome of running the device-listing command
`nvidia-smi --query-gpu=index,name,memory.total --format=csv,noheader`. -/
inductive SmiOutcome where
  /-- The tool is absent (`FileNotFoundError`). -/
  | toolMissing : SmiOutcome
  /-- The tool exited non-zero (`CalledProcessError`, since `check=True`). -/
  | exitNonZero : SmiOutcome
  /-- The tool exited zero with the given standard output. -/
  | success (stdout : String) : SmiOutcome

/-- Parse the comma-separated rows of the probe output, in order: a row with
fewer than 3 fields is skipped (`if len(row) < 3: continue`); on a row with at
least 3 fields, `int(row[0].strip())` may raise, which aborts the whole parse
(`Except.error`, caught by the probe's catch-all handler). -/
def parseRows : List (List String) → Except Unit (List Device)
  | [] => .ok []
  | row :: rest =>
    match row with
    | r0 :: r1 :: r2 :: _ =>
      match pyInt (pyStrip r0) with
      | none => .error ()
      | some i =>
        match parseRows rest with
        | .error e => .error e
        | .ok ds =>
          .ok ({ index := i, name := pyStrip r1, memory := pyStrip r2 } :: ds)
    | _ => parseRows rest

/-- Split the probe's stdout into comma-separated rows, one per line. -/
def rowsOf (stdout : String) : List (List String) :=
  (splitOnChar '\n' stdout.data).map
    (fun line => (splitOnChar ',' line).map (fun cs => (⟨cs⟩ : String)))

/-- The body of the probe's `try` block: parse stdout into `Device` records. -/
def parseGpus (stdout : String) : Except Unit (List Device) :=
  parseRows (rowsOf stdout)

/-- `get_gpus_from_nvidia_smi()`: returns the device list and whether the
`⚠️  Failed to query nvidia-smi` warning was printed. Every failure of the
invocation or of row parsing is caught by the blanket `except Exception`
handler, which prints the warning and returns the empty list. -/
def get_gpus_from_nvidia_smi : SmiOutcome → List Device × Bool
  | .toolMissing => ([], true)
  | .exitNonZero => ([], true)
  | .success stdout =>
    match parseGpus stdout with
    | .error _ => ([], true)
    | .ok ds => (ds, false)

/-- `env = os.environ.copy(); env["CUDA_VISIBLE_DEVICES"] = str(index)`. -/
def setCVD (osEnv : Env) (index : Int) : Env :=
  fun k => if k = "CUDA_VISIBLE_DEVICES" then some (toString index) else osEnv k

/-- `shutil.copy2(src, dst)` on the file-system map: the destination takes the
source's contents, every other path is unchanged (metadata not modelled). -/
def copy2 (src dst : String) (fs : Fs) : Fs :=
  fun p => if p = dst then fs src else fs p

/-- Result of one `manage_engine` invocation: the returned boolean, the file
system afterwards, whether the build subprocess was invoked, and (when it was)
the environment it was invoked with. -/
structure EngineResult where
  ok : Bool
  fs : Fs
  buildInvoked : Bool
  buildEnvUsed : Option Env

/-- `manage_engine(gpu_info)` over an explicit file system. The build
subprocess `subprocess.run([sys.executable, BUILD_SCRIPT], env=env, check=True)`
is a parameter `build`: from the environment it receives and the current file
system it produces `(exited zero?, file system afterwards)`; a `false` first
component models the raised `CalledProcessError`. Steps, as in the source:
1. Check: if the device-named cache file exists, Restore it over the active
   path (`shutil.copy2`) and return `True` — no build.
2. Otherwise Build with `CUDA_VISIBLE_DEVICES` set to the device's index;
   on non-zero exit return `False`.
3. Verify: if the active path now exists, Persist it to the cache path and
   return `True`; otherwise return `False`. -/
def manage_engine (osEnv : Env) (build : Env → Fs → Bool × Fs)
    (gpu_info : Device) (fs : Fs) : EngineResult :=
  let gpu_name := get_sanitized_name gpu_info.name
  let cached := cachedEnginePath gpu_name
  if (fs cached).isSome then
    { ok := true, fs := copy2 cached activeEnginePath fs
      buildInvoked := false, buildEnvUsed := none }
  else
    let env := setCVD osEnv gpu_info.index
    let p := build env fs
    if p.1 then
      if (p.2 activeEnginePath).isSome then
        { ok := true, fs := copy2 activeEnginePath cached p.2
          buildInvoked := true, buildEnvUsed := some env }
      else
        { ok := false, fs := p.2, buildInvoked := true, buildEnvUsed := some env }
    else
      { ok := false, fs := p.2, buildInvoked := true, buildEnvUsed := some env }

/-- What the inference child process did: exited with some code, or was cut
short by an operator interrupt delivered to the launcher. -/
inductive ChildOutcome where
  | exited (code : Int) : ChildOutcome
  | interrupted : ChildOutcome

/-- What `run_inference` handed to the child: its environment and argv. -/
structure InferenceResult where
  env : Env
  cmd : List String

/-- `run_inference(gpu_index, extra_args)`: builds the restricted environment
and the command line, runs the child, and returns normally whatever the child
outcome is — `subprocess.run` is called without `check`, so the child's exit
status is never inspected, and `KeyboardInterrupt` is swallowed by the
`except ... pass`. `pythonExe` stands for `sys.executable`. -/
def run_inference (osEnv : Env) (pythonExe : String) (gpu_index : Int)
    (extra_args : List String) (child : ChildOutcome) : InferenceResult :=
  match child with
  | .exited _ => { env := setCVD osEnv gpu_index
                   cmd := pythonExe :: INFERENCE_SCRIPT :: extra_args }
  | .interrupted => { env := setCVD osEnv gpu_index
                      cmd := pythonExe :: INFERENCE_SCRIPT :: extra_args }

/-- `if "--acceleration" not in pass_args: pass_args.extend(["--acceleration",
"tensorrt"])` — Python `in` on a list is exact element equality. -/
def injectAcceleration (pass_args : List String) : List String :=
  if "--acceleration" ∈ pass_args then pass_args
  else pass_args ++ ["--acceleration", "tensorrt"]

/-- Result of one whole launcher run: the process exit status, the file system
afterwards, which device was selected, the `manage_engine` return value (when
reached), build/inference activity, and the diagnostics `main` printed. -/
structure RunResult where
  exitCode : Nat
  fs : Fs
  selected : Option Device
  engineResult : Option Bool
  buildInvoked : Bool
  buildEnvUsed : Option Env
  inferenceLaunched : Bool
  inference : Option InferenceResult
  errors : List String

/-- `main` from the point where a device has been selected: run
`manage_engine`; on `False` exit with status 1 without launching inference;
otherwise inject the acceleration flag and launch the inference child. -/
def afterSelect (osEnv : Env) (pythonExe : String) (build : Env → Fs → Bool × Fs)
    (inference_args : List String) (child : ChildOutcome) (fs : Fs)
    (g : Device) : RunResult :=
  let er := manage_engine osEnv build g fs
  if er.ok then
    let pass_args := injectAcceleration inference_args
    let ir := run_inference osEnv pythonExe g.index pass_args child
    { exitCode := 0, fs := er.fs, selected := some g, engineResult := some true
      buildInvoked := er.buildInvoked, buildEnvUsed := er.buildEnvUsed
      inferenceLaunched := true, inference := some ir, errors := [] }
  else
    { exitCode := 1, fs := er.fs, selected := some g, engineResult := some false
      buildInvoked := er.buildInvoked, buildEnvUsed := er.buildEnvUsed
      inferenceLaunched := false, inference := none, errors := [] }

/-- The interactive selection loop: `int(input(...))` repeatedly; a
`ValueError` (`none` from `pyInt`) or an index matching no device re-prompts.
`inputs` is the operator's scripted answers; exhausting them means the loop is
still blocking on input. -/
def selectLoop (gpus : List Device) : List String → Option Device
  | [] => none
  | inp :: rest =>
    match pyInt inp with
    | none => selectLoop gpus rest
    | some idx =>
      match gpus.find? (fun g => g.index == idx) with
      | some g => some g
      | none => selectLoop gpus rest

/-- The benign early exit when the probe yields no devices: `main` prints the
diagnostic and returns, so the process exits with status 0. -/
def noGpusResult (fs : Fs) : RunResult :=
  { exitCode := 0, fs := fs, selected := none, engineResult := none
    buildInvoked := false, buildEnvUsed := none
    inferenceLaunched := false, inference := none
    errors := ["No NVIDIA GPUs found (or nvidia-smi failed)."] }

/-- The early exit when an explicit `--gpu` index matches no probed device:
`main` prints the diagnostic and returns, so the process exits with status 0. -/
def gpuNotFoundResult (fs : Fs) (i : Int) : RunResult :=
  { exitCode := 0, fs := fs, selected := none, engineResult := none
    buildInvoked := false, buildEnvUsed := none
    inferenceLaunched := false, inference := none
    errors := ["Error: GPU index " ++ toString i ++ " not found."] }

/-- `main()`: probe → select → ensure engine → launch. Returns `none` when the
run is still blocked in the interactive prompt (inputs exhausted); otherwise
the completed run. Falling off the end of `main` exits the process with
status 0; the only non-zero exit is `sys.exit(1)` after a failed
`manage_engine`. -/
def mainRun (osEnv : Env) (pythonExe : String) (build : Env → Fs → Bool × Fs)
    (smi : SmiOutcome) (gpuArg : Option Int) (inference_args : List String)
    (inputs : List String) (child : ChildOutcome) (fs : Fs) :
    Option RunResult :=
  match (get_gpus_from_nvidia_smi smi).1 with
  | [] => some (noGpusResult fs)
  | g0 :: rest =>
    let gpus := g0 :: rest
    match gpuArg with
    | some i =>
      match gpus.find? (fun g => g.index == i) with
      | some g => some (afterSelect osEnv pythonExe build inference_args child fs g)
      | none => some (gpuNotFoundResult fs i)
    | none =>
      if rest.isEmpty then
        some (afterSelect osEnv pythonExe build inference_args child fs g0)
      else
        match selectLoop gpus inputs with
        | some g => some (afterSelect osEnv pythonExe build inference_args child fs g)
        | none => none

/-! ## Helper lemmas -/

/-- Length of the cached-engine path, as a function of the sanitized name. -/
lemma length_cachedEnginePath (gpu_name : String) :
    (cachedEnginePath gpu_name).length = 47 + gpu_name.length := by
  have e1 : ("./pretrained_weights/tensorrt" : String).length = 29 := rfl
  have e2 : ("/" : String).length = 1 := rfl
  have e3 : ("unet_work_" : String).length = 10 := rfl
  have e4 : (".engine" : String).length = 7 := rfl
  simp only [cachedEnginePath, pathJoin, cachedEngineFilename, ENGINE_DIR,
    String.length_append, e1, e2, e3, e4]
  omega

/-- Length of the active-engine path. -/
lemma length_activeEnginePath : activeEnginePath.length = 46 := rfl

/-- The per-device cache path never coincides with the active path
(their lengths differ: `47 + n ≠ 46`). -/
lemma cachedEnginePath_ne_activeEnginePath (gpu_name : String) :
    cachedEnginePath gpu_name ≠ activeEnginePath := by
  intro h
  have hl := congrArg String.length h
  rw [length_cachedEnginePath, length_activeEnginePath] at hl
  omega

/-- Cache hit: when the device-named cache file exists, `manage_engine`
restores it over the active path and reports success without building. -/
lemma manage_engine_hit (osEnv : Env) (build : Env → Fs → Bool × Fs)
    (gpu_info : Device) (fs : Fs)
    (h : (fs (cachedEnginePath (get_sanitized_name gpu_info.name))).isSome) :
    manage_engine osEnv build gpu_info fs =
      { ok := true
        fs := copy2 (cachedEnginePath (get_sanitized_name gpu_info.name))
                activeEnginePath fs
        buildInvoked := false, buildEnvUsed := none } := by
  simp only [manage_engine, h, if_true]

/-- Cache miss, successful build, active artifact present: `manage_engine`
persists the active artifact to the cache path and reports success. -/
lemma manage_engine_miss_built (osEnv : Env) (build : Env → Fs → Bool × Fs)
    (gpu_info : Device) (fs : Fs)
    (hmiss : fs (cachedEnginePath (get_sanitized_name gpu_info.name)) = none)
    (hok : (build (setCVD osEnv gpu_info.index) fs).1 = true)
    (hact : ((build (setCVD osEnv gpu_info.index) fs).2 activeEnginePath).isSome) :
    manage_engine osEnv build gpu_info fs =
      { ok := true
        fs := copy2 activeEnginePath
                (cachedEnginePath (get_sanitized_name gpu_info.name))
                (build (setCVD osEnv gpu_info.index) fs).2
        buildInvoked := true
        buildEnvUsed := some (setCVD osEnv gpu_info.index) } := by
  simp only [manage_engine, hmiss, Option.isSome_none, Bool.false_eq_true,
    if_false, hok, if_true, hact]

/-- `manage_engine` on a cache miss whose build fails. -/
lemma manage_engine_miss_build_failed (osEnv : Env) (build : Env → Fs → Bool × Fs)
    (gpu_info : Device) (fs : Fs)
    (hmiss : fs (cachedEnginePath (get_sanitized_name gpu_info.name)) = none)
    (hfail : (build (setCVD osEnv gpu_info.index) fs).1 = false) :
    manage_engine osEnv build gpu_info fs =
      { ok := false, fs := (build (setCVD osEnv gpu_info.index) fs).2
        buildInvoked := true
        buildEnvUsed := some (setCVD osEnv gpu_info.index) } := by
  simp only [manage_engine, hmiss, Option.isSome_none, Bool.false_eq_true,
    if_false, hfail]

/-- `manage_engine` on a cache miss whose build exits zero but leaves no
active artifact. -/
lemma manage_engine_miss_output_missing (osEnv : Env) (build : Env → Fs → Bool × Fs)
    (gpu_info : Device) (fs : Fs)
    (hmiss : fs (cachedEnginePath (get_sanitized_name gpu_info.name)) = none)
    (hok : (build (setCVD osEnv gpu_info.index) fs).1 = true)
    (hact : (build (setCVD osEnv gpu_info.index) fs).2 activeEnginePath = none) :
    manage_engine osEnv build gpu_info fs =
      { ok := false, fs := (build (setCVD osEnv gpu_info.index) fs).2
        buildInvoked := true
        buildEnvUsed := some (setCVD osEnv gpu_info.index) } := by
  simp only [manage_engine, hmiss, Option.isSome_none, Bool.false_eq_true,
    if_false, hok, if_true, hact]

/-! ## Claim theorems -/

/-- C9: `get_sanitized_name` is pure and deterministic — equal inputs give
equal outputs, every output character is alphanumeric or `_`, the output
length equals the input length, and `"RTX 3090"` maps to `"RTX_3090"`. -/
theorem sanitize_pure_deterministic_safe :
    (∀ s t : String, s = t → get_sanitized_name s = get_sanitized_name t)
    ∧ (∀ s : String, ∀ c ∈ (get_sanitized_name s).data,
        isAsciiAlnum c = true ∨ c = '_')
    ∧ (∀ s : String, (get_sanitized_name s).length = s.length)
    ∧ get_sanitized_name "RTX 3090" = "RTX_3090" := by
  refine ⟨fun s t h => h ▸ rfl, ?_, ?_, by decide⟩
  · intro s c hc
    simp only [get_sanitized_name, List.mem_map] at hc
    obtain ⟨c0, -, rfl⟩ := hc
    unfold sanitizeChar
    by_cases h : isAsciiAlnum c0 = true
    · exact Or.inl (by simp [h])
    · exact Or.inr (by simp [h])
  · intro s
    show (s.data.map sanitizeChar).length = s.data.length
    simp

/-- C9 witness: the determinism hypothesis discharged at `"RTX 3090"`. -/
theorem sanitize_pure_deterministic_safe_witness :
    get_sanitized_name "RTX 3090" = get_sanitized_name "RTX 3090" :=
  sanitize_pure_deterministic_safe.1 "RTX 3090" "RTX 3090" rfl

/-- C5: if `"--acceleration"` occurs as a list element of the pass-through
arguments they are forwarded unmodified; otherwise exactly one
`"--acceleration"` flag with value `"tensorrt"` is appended at the end and
nothing else changes. -/
theorem acceleration_flag_injection :
    (∀ xs : List String, "--acceleration" ∈ xs → injectAcceleration xs = xs)
    ∧ (∀ xs : List String, "--acceleration" ∉ xs →
        injectAcceleration xs = xs ++ ["--acceleration", "tensorrt"]
        ∧ (injectAcceleration xs).count "--acceleration" = 1) := by
  constructor
  · intro xs h
    simp [injectAcceleration, h]
  · intro xs h
    refine ⟨by simp [injectAcceleration, h], ?_⟩
    simp [injectAcceleration, h, List.count_append, List.count_eq_zero]

/-- C5 witness: both branches at concrete argument lists. -/
theorem acceleration_flag_injection_witness :
    injectAcceleration ["--acceleration", "cuda"] = ["--acceleration", "cuda"]
    ∧ injectAcceleration ["--port", "8080"] =
        ["--port", "8080", "--acceleration", "tensorrt"] :=
  ⟨acceleration_flag_injection.1 ["--acceleration", "cuda"] (by decide),
   (acceleration_flag_injection.2 ["--port", "8080"] (by decide)).1⟩

/-- Reading the destination of a copy yields the source's contents. -/
lemma copy2_dst (src dst : String) (fs : Fs) : copy2 src dst fs dst = fs src := by
  simp [copy2]

/-- Reading any other path after a copy is unchanged. -/
lemma copy2_other (src dst p : String) (fs : Fs) (h : p ≠ dst) :
    copy2 src dst fs p = fs p := by
  simp [copy2, h]

/-- C2: whenever `manage_engine` returns `True` — by the Restore path or by
the Build-then-Persist path — the active artifact's content equals the content
of the cache file named for the selected device's sanitized name. -/
theorem engine_success_active_eq_cache (osEnv : Env) (build : Env → Fs → Bool × Fs)
    (gpu : Device) (fs : Fs)
    (h : (manage_engine osEnv build gpu fs).ok = true) :
    (manage_engine osEnv build gpu fs).fs activeEnginePath
      = (manage_engine osEnv build gpu fs).fs
          (cachedEnginePath (get_sanitized_name gpu.name)) := by
  by_cases hhit : (fs (cachedEnginePath (get_sanitized_name gpu.name))).isSome
  · rw [manage_engine_hit osEnv build gpu fs hhit]
    dsimp only
    rw [copy2_dst, copy2_other _ _ _ _ (cachedEnginePath_ne_activeEnginePath _)]
  · have hmiss : fs (cachedEnginePath (get_sanitized_name gpu.name)) = none :=
      Option.not_isSome_iff_eq_none.mp hhit
    by_cases hb : (build (setCVD osEnv gpu.index) fs).1 = true
    · by_cases ha : ((build (setCVD osEnv gpu.index) fs).2 activeEnginePath).isSome
      · rw [manage_engine_miss_built osEnv build gpu fs hmiss hb ha]
        dsimp only
        rw [copy2_dst,
          copy2_other _ _ _ _ (cachedEnginePath_ne_activeEnginePath _).symm]
      · have ha' : (build (setCVD osEnv gpu.index) fs).2 activeEnginePath = none :=
          Option.not_isSome_iff_eq_none.mp ha
        rw [manage_engine_miss_output_missing osEnv build gpu fs hmiss hb ha'] at h
        simp at h
    · have hb' : (build (setCVD osEnv gpu.index) fs).1 = false :=
        Bool.not_eq_true _ ▸ hb
      rw [manage_engine_miss_build_failed osEnv build gpu fs hmiss hb'] at h
      simp at h

/-- A sample base environment for witnesses. -/
def sampleEnv : Env := fun _ => none

/-- A build subprocess that always fails and touches nothing. -/
def failBuild : Env → Fs → Bool × Fs := fun _ f => (false, f)

/-- A build subprocess that exits zero after writing the active artifact. -/
def okBuild : Env → Fs → Bool × Fs :=
  fun _ f => (true, fun p => if p = activeEnginePath then some "BUILT" else f p)

/-- A sample probed device. -/
def sampleDevice : Device := { index := 0, name := "RTX 3090", memory := "24576 MiB" }

/-- A file system already holding the cache entry for `sampleDevice`. -/
def fsWithCache : Fs :=
  fun p => if p = cachedEnginePath "RTX_3090" then some "ENGINE-RTX" else none

/-- An empty file system. -/
def emptyFs : Fs := fun _ => none

/-- C2 witness: the invariant at a concrete cache-hit run. -/
theorem engine_success_active_eq_cache_witness :
    (manage_engine sampleEnv failBuild sampleDevice fsWithCache).fs activeEnginePath
      = (manage_engine sampleEnv failBuild sampleDevice fsWithCache).fs
          (cachedEnginePath (get_sanitized_name sampleDevice.name)) :=
  engine_success_active_eq_cache sampleEnv failBuild sampleDevice fsWithCache
    (by decide)

/-- C3: when the device-named cache file already exists, `manage_engine`
never invokes the build, returns `True`, leaves the cache file unchanged, and
makes the active file's bytes equal the cache file's bytes. -/
theorem cache_hit_no_build (osEnv : Env) (build : Env → Fs → Bool × Fs)
    (gpu : Device) (fs : Fs)
    (h : (fs (cachedEnginePath (get_sanitized_name gpu.name))).isSome) :
    (manage_engine osEnv build gpu fs).buildInvoked = false
    ∧ (manage_engine osEnv build gpu fs).ok = true
    ∧ (manage_engine osEnv build gpu fs).fs
        (cachedEnginePath (get_sanitized_name gpu.name))
      = fs (cachedEnginePath (get_sanitized_name gpu.name))
    ∧ (manage_engine osEnv build gpu fs).fs activeEnginePath
      = fs (cachedEnginePath (get_sanitized_name gpu.name)) := by
  rw [manage_engine_hit osEnv build gpu fs h]
  refine ⟨rfl, rfl, ?_, ?_⟩
  · dsimp only
    exact copy2_other _ _ _ _ (cachedEnginePath_ne_activeEnginePath _)
  · dsimp only
    exact copy2_dst _ _ _

/-- C3 witness: the cache-hit contract at a concrete file system. -/
theorem cache_hit_no_build_witness :
    (manage_engine sampleEnv failBuild sampleDevice fsWithCache).buildInvoked = false
    ∧ (manage_engine sampleEnv failBuild sampleDevice fsWithCache).ok = true
    ∧ (manage_engine sampleEnv failBuild sampleDevice fsWithCache).fs
        (cachedEnginePath (get_sanitized_name sampleDevice.name))
      = fsWithCache (cachedEnginePath (get_sanitized_name sampleDevice.name))
    ∧ (manage_engine sampleEnv failBuild sampleDevice fsWithCache).fs activeEnginePath
      = fsWithCache (cachedEnginePath (get_sanitized_name sampleDevice.name)) :=
  cache_hit_no_build sampleEnv failBuild sampleDevice fsWithCache (by decide)

/-- C7: after a successful build-and-persist invocation (`True` with the build
invoked), any later `manage_engine` on the resulting file system for a device
with the same sanitized name takes the cache-hit path: it succeeds and invokes
no build. -/
theorem build_then_rerun_cache_hit (osEnv osEnv2 : Env)
    (build build2 : Env → Fs → Bool × Fs) (gpu gpu2 : Device) (fs : Fs)
    (hok : (manage_engine osEnv build gpu fs).ok = true)
    (hbuilt : (manage_engine osEnv build gpu fs).buildInvoked = true)
    (hsan : get_sanitized_name gpu2.name = get_sanitized_name gpu.name) :
    (manage_engine osEnv2 build2 gpu2 (manage_engine osEnv build gpu fs).fs).ok
        = true
    ∧ (manage_engine osEnv2 build2 gpu2
        (manage_engine osEnv build gpu fs).fs).buildInvoked = false := by
  by_cases hhit : (fs (cachedEnginePath (get_sanitized_name gpu.name))).isSome
  · rw [manage_engine_hit osEnv build gpu fs hhit] at hbuilt
    simp at hbuilt
  · have hmiss : fs (cachedEnginePath (get_sanitized_name gpu.name)) = none :=
      Option.not_isSome_iff_eq_none.mp hhit
    by_cases hb : (build (setCVD osEnv gpu.index) fs).1 = true
    · by_cases ha : ((build (setCVD osEnv gpu.index) fs).2 activeEnginePath).isSome
      · rw [manage_engine_miss_built osEnv build gpu fs hmiss hb ha]
        dsimp only
        have hcache :
            ((copy2 activeEnginePath (cachedEnginePath (get_sanitized_name gpu.name))
              (build (setCVD osEnv gpu.index) fs).2)
              (cachedEnginePath (get_sanitized_name gpu2.name))).isSome := by
          rw [hsan, copy2_dst]
          exact ha
        rw [manage_engine_hit osEnv2 build2 gpu2 _ hcache]
        exact ⟨rfl, rfl⟩
      · have ha' : (build (setCVD osEnv gpu.index) fs).2 activeEnginePath = none :=
          Option.not_isSome_iff_eq_none.mp ha
        rw [manage_engine_miss_output_missing osEnv build gpu fs hmiss hb ha'] at hok
        simp at hok
    · have hb' : (build (setCVD osEnv gpu.index) fs).1 = false :=
        Bool.not_eq_true _ ▸ hb
      rw [manage_engine_miss_build_failed osEnv build gpu fs hmiss hb'] at hok
      simp at hok

/-- C7 witness: build once on an empty file system, then re-run for the same
device: the second run is a cache hit. -/
theorem build_then_rerun_cache_hit_witness :
    (manage_engine sampleEnv failBuild sampleDevice
        (manage_engine sampleEnv okBuild sampleDevice emptyFs).fs).ok = true
    ∧ (manage_engine sampleEnv failBuild sampleDevice
        (manage_engine sampleEnv okBuild sampleDevice emptyFs).fs).buildInvoked
        = false :=
  build_then_rerun_cache_hit sampleEnv sampleEnv okBuild failBuild
    sampleDevice sampleDevice emptyFs (by decide) (by decide) rfl

/-- C6: the environment handed to the build subprocess and to the inference
subprocess binds `CUDA_VISIBLE_DEVICES` to exactly the decimal string of the
selected device's index. Neither environment depends on the probed device
list: `setCVD` takes only the parent environment and the selected index. -/
theorem subprocess_env_device_isolation :
    (∀ (osEnv : Env) (idx : Int),
      setCVD osEnv idx "CUDA_VISIBLE_DEVICES" = some (toString idx))
    ∧ (∀ (osEnv : Env) (build : Env → Fs → Bool × Fs) (gpu : Device) (fs : Fs)
        (e : Env), (manage_engine osEnv build gpu fs).buildEnvUsed = some e →
          e "CUDA_VISIBLE_DEVICES" = some (toString gpu.index))
    ∧ (∀ (osEnv : Env) (pythonExe : String) (idx : Int) (args : List String)
        (child : ChildOutcome),
        (run_inference osEnv pythonExe idx args child).env "CUDA_VISIBLE_DEVICES"
          = some (toString idx)) := by
  have hset : ∀ (osEnv : Env) (idx : Int),
      setCVD osEnv idx "CUDA_VISIBLE_DEVICES" = some (toString idx) := by
    intro osEnv idx
    simp [setCVD]
  refine ⟨hset, ?_, ?_⟩
  · intro osEnv build gpu fs e he
    by_cases hhit : (fs (cachedEnginePath (get_sanitized_name gpu.name))).isSome
    · rw [manage_engine_hit osEnv build gpu fs hhit] at he
      simp at he
    · have hmiss : fs (cachedEnginePath (get_sanitized_name gpu.name)) = none :=
        Option.not_isSome_iff_eq_none.mp hhit
      by_cases hb : (build (setCVD osEnv gpu.index) fs).1 = true
      · by_cases ha : ((build (setCVD osEnv gpu.index) fs).2 activeEnginePath).isSome
        · rw [manage_engine_miss_built osEnv build gpu fs hmiss hb ha] at he
          dsimp only at he
          rw [Option.some_inj] at he
          rw [← he]
          exact hset osEnv gpu.index
        · have ha' : (build (setCVD osEnv gpu.index) fs).2 activeEnginePath = none :=
            Option.not_isSome_iff_eq_none.mp ha
          rw [manage_engine_miss_output_missing osEnv build gpu fs hmiss hb ha'] at he
          dsimp only at he
          rw [Option.some_inj] at he
          rw [← he]
          exact hset osEnv gpu.index
      · have hb' : (build (setCVD osEnv gpu.index) fs).1 = false :=
          Bool.not_eq_true _ ▸ hb
        rw [manage_engine_miss_build_failed osEnv build gpu fs hmiss hb'] at he
        dsimp only at he
        rw [Option.some_inj] at he
        rw [← he]
        exact hset osEnv gpu.index
  · intro osEnv pythonExe idx args child
    cases child <;> simp [run_inference, setCVD]

/-- C6 witness: the build environment of a concrete cache-miss run restricts
visibility to device index 0. -/
theorem subprocess_env_device_isolation_witness :
    setCVD sampleEnv 0 "CUDA_VISIBLE_DEVICES" = some (toString (0 : Int)) :=
  subprocess_env_device_isolation.2.1 sampleEnv okBuild sampleDevice emptyFs
    (setCVD sampleEnv 0) rfl

/-- The device a well-formed probe row denotes: `none` for a row with fewer
than 3 fields or an unparsable index. -/
def specRowDevice : List String → Option Device
  | r0 :: r1 :: r2 :: _ =>
    (pyInt (pyStrip r0)).map
      (fun i => { index := i, name := pyStrip r1, memory := pyStrip r2 })
  | _ => none

/-- A successful parse yields exactly the devices of the well-formed rows, in
order, short rows skipped. -/
lemma parseRows_ok_eq (rows : List (List String)) (ds : List Device)
    (h : parseRows rows = .ok ds) : ds = rows.filterMap specRowDevice := by
  induction rows generalizing ds with
  | nil =>
    simp only [parseRows] at h
    cases h
    simp
  | cons row rest ih =>
    rcases row with _ | ⟨r0, _ | ⟨r1, _ | ⟨r2, rtail⟩⟩⟩
    · simp only [parseRows] at h
      simpa [specRowDevice] using ih ds h
    · simp only [parseRows] at h
      simpa [specRowDevice] using ih ds h
    · simp only [parseRows] at h
      simpa [specRowDevice] using ih ds h
    · simp only [parseRows] at h
      cases hint : pyInt (pyStrip r0) with
      | none => rw [hint] at h; cases h
      | some i =>
        rw [hint] at h
        cases hrest : parseRows rest with
        | error e => rw [hrest] at h; cases h
        | ok ds' =>
          rw [hrest] at h
          cases h
          simp [List.filterMap_cons, specRowDevice, hint, ih ds' hrest]

/-- C8: the inventory probe never propagates a failure: a missing tool, a
non-zero tool exit, or an unparsable output each yield the empty device list
with the warning printed; a parsable output yields exactly the devices of its
well-formed rows (rows with fewer than 3 fields skipped) with no warning. -/
theorem probe_never_raises :
    get_gpus_from_nvidia_smi .toolMissing = ([], true)
    ∧ get_gpus_from_nvidia_smi .exitNonZero = ([], true)
    ∧ (∀ stdout : String, parseGpus stdout = .error () →
        get_gpus_from_nvidia_smi (.success stdout) = ([], true))
    ∧ (∀ (stdout : String) (ds : List Device), parseGpus stdout = .ok ds →
        get_gpus_from_nvidia_smi (.success stdout) = (ds, false)
        ∧ ds = (rowsOf stdout).filterMap specRowDevice) := by
  refine ⟨rfl, rfl, ?_, ?_⟩
  · intro stdout h
    simp [get_gpus_from_nvidia_smi, h]
  · intro stdout ds h
    exact ⟨by simp [get_gpus_from_nvidia_smi, h], parseRows_ok_eq _ _ h⟩

/-- C8 witness: a concrete output with one malformed row parses to the two
well-formed devices, warning-free. -/
theorem probe_never_raises_witness :
    get_gpus_from_nvidia_smi
        (.success "0, RTX 3090, 24576 MiB\nbadrow\n1,H100,80 GiB")
      = ([{ index := 0, name := "RTX 3090", memory := "24576 MiB" },
          { index := 1, name := "H100", memory := "80 GiB" }], false) :=
  (probe_never_raises.2.2.2 "0, RTX 3090, 24576 MiB\nbadrow\n1,H100,80 GiB"
    [{ index := 0, name := "RTX 3090", memory := "24576 MiB" },
     { index := 1, name := "H100", memory := "80 GiB" }] rfl).1

/-- Behaviour of the post-selection stage as a function of the
`manage_engine` outcome. -/
lemma afterSelect_cases (osEnv : Env) (pythonExe : String)
    (build : Env → Fs → Bool × Fs) (inference_args : List String)
    (child : ChildOutcome) (fs : Fs) (g : Device) :
    ((manage_engine osEnv build g fs).ok = true
      ∧ (afterSelect osEnv pythonExe build inference_args child fs g).engineResult
          = some true
      ∧ (afterSelect osEnv pythonExe build inference_args child fs g).exitCode = 0
      ∧ (afterSelect osEnv pythonExe build inference_args child fs g).inferenceLaunched
          = true)
    ∨ ((manage_engine osEnv build g fs).ok = false
      ∧ (afterSelect osEnv pythonExe build inference_args child fs g).engineResult
          = some false
      ∧ (afterSelect osEnv pythonExe build inference_args child fs g).exitCode = 1
      ∧ (afterSelect osEnv pythonExe build inference_args child fs g).inferenceLaunched
          = false) := by
  by_cases h : (manage_engine osEnv build g fs).ok = true
  · left
    refine ⟨h, ?_⟩
    simp [afterSelect, h]
  · right
    have h' : (manage_engine osEnv build g fs).ok = false := Bool.not_eq_true _ ▸ h
    refine ⟨h', ?_⟩
    simp [afterSelect, h']

/-- Every completed run is the no-device early exit, the not-found early exit,
or a post-selection run for some device. -/
lemma mainRun_shape (osEnv : Env) (pythonExe : String)
    (build : Env → Fs → Bool × Fs) (smi : SmiOutcome) (gpuArg : Option Int)
    (inference_args : List String) (inputs : List String) (child : ChildOutcome)
    (fs : Fs) (r : RunResult)
    (h : mainRun osEnv pythonExe build smi gpuArg inference_args inputs child fs
          = some r) :
    r = noGpusResult fs
    ∨ (∃ i : Int, r = gpuNotFoundResult fs i)
    ∨ (∃ g : Device,
        r = afterSelect osEnv pythonExe build inference_args child fs g) := by
  unfold mainRun at h
  cases hg : (get_gpus_from_nvidia_smi smi).1 with
  | nil =>
    rw [hg] at h
    cases h
    exact Or.inl rfl
  | cons g0 rest =>
    rw [hg] at h
    dsimp only at h
    cases gpuArg with
    | some i =>
      dsimp only at h
      cases hf : (g0 :: rest).find? (fun g => g.index == i) with
      | some g =>
        rw [hf] at h
        cases h
        exact Or.inr (Or.inr ⟨g, rfl⟩)
      | none =>
        rw [hf] at h
        cases h
        exact Or.inr (Or.inl ⟨i, rfl⟩)
    | none =>
      dsimp only at h
      by_cases hr : rest.isEmpty
      · rw [if_pos hr] at h
        cases h
        exact Or.inr (Or.inr ⟨g0, rfl⟩)
      · rw [if_neg hr] at h
        cases hs : selectLoop (g0 :: rest) inputs with
        | some g =>
          rw [hs] at h
          cases h
          exact Or.inr (Or.inr ⟨g, rfl⟩)
        | none =>
          rw [hs] at h
          cases h

/-- C4: whenever a completed run's `manage_engine` step terminated in its
FAILED state (returned `False`), the orchestrator exits with the non-zero
status 1 and the inference subprocess is never launched in that run. -/
theorem engine_failed_exits_nonzero_no_inference (osEnv : Env)
    (pythonExe : String) (build : Env → Fs → Bool × Fs) (smi : SmiOutcome)
    (gpuArg : Option Int) (inference_args : List String) (inputs : List String)
    (child : ChildOutcome) (fs : Fs)
    (h : (mainRun osEnv pythonExe build smi gpuArg inference_args inputs child
            fs).map RunResult.engineResult = some (some false)) :
    (mainRun osEnv pythonExe build smi gpuArg inference_args inputs child
        fs).map RunResult.exitCode = some 1
    ∧ (mainRun osEnv pythonExe build smi gpuArg inference_args inputs child
        fs).map RunResult.inferenceLaunched = some false := by
  rw [Option.map_eq_some'] at h
  obtain ⟨r, hr, hfail⟩ := h
  rw [hr, Option.map_some', Option.map_some']
  rcases mainRun_shape osEnv pythonExe build smi gpuArg inference_args inputs
      child fs r hr with h0 | ⟨i, h1⟩ | ⟨g, h2⟩
  · rw [h0] at hfail
    simp [noGpusResult] at hfail
  · rw [h1] at hfail
    simp [gpuNotFoundResult] at hfail
  · rcases afterSelect_cases osEnv pythonExe build inference_args child fs g
        with ⟨-, he, -, -⟩ | ⟨-, -, hc, hl⟩
    · rw [h2] at hfail
      rw [he] at hfail
      simp at hfail
    · rw [h2, hc, hl]
      exact ⟨rfl, rfl⟩

/-- C4 witness: explicit `--gpu 0` with an empty cache and a failing build:
the run exits 1 and launches no inference. -/
theorem engine_failed_exits_nonzero_no_inference_witness :
    (mainRun sampleEnv "python" failBuild (.success "0,A,1") (some 0) [] []
        (.exited 0) emptyFs).map RunResult.exitCode = some 1
    ∧ (mainRun sampleEnv "python" failBuild (.success "0,A,1") (some 0) [] []
        (.exited 0) emptyFs).map RunResult.inferenceLaunched = some false :=
  engine_failed_exits_nonzero_no_inference sampleEnv "python" failBuild
    (.success "0,A,1") (some 0) [] [] (.exited 0) emptyFs rfl

/-- C10: the inference child's exit status is never inspected: `run_inference`
behaves identically for every child outcome (any exit code, or an operator
interrupt), and every completed run that reaches the launch step terminates
with orchestrator exit status 0, whatever the child did. -/
theorem inference_exit_never_inspected :
    (∀ (osEnv : Env) (pythonExe : String) (idx : Int) (args : List String)
        (c1 c2 : ChildOutcome),
        run_inference osEnv pythonExe idx args c1
          = run_inference osEnv pythonExe idx args c2)
    ∧ (∀ (osEnv : Env) (pythonExe : String) (build : Env → Fs → Bool × Fs)
        (smi : SmiOutcome) (gpuArg : Option Int)
        (inference_args inputs : List String) (child : ChildOutcome) (fs : Fs),
        (mainRun osEnv pythonExe build smi gpuArg inference_args inputs child
            fs).map RunResult.inferenceLaunched = some true →
        (mainRun osEnv pythonExe build smi gpuArg inference_args inputs child
            fs).map RunResult.exitCode = some 0) := by
  constructor
  · intro osEnv pythonExe idx args c1 c2
    cases c1 <;> cases c2 <;> rfl
  · intro osEnv pythonExe build smi gpuArg inference_args inputs child fs h
    rw [Option.map_eq_some'] at h
    obtain ⟨r, hr, hlaunch⟩ := h
    rw [hr, Option.map_some']
    rcases mainRun_shape osEnv pythonExe build smi gpuArg inference_args inputs
        child fs r hr with h0 | ⟨i, h1⟩ | ⟨g, h2⟩
    · rw [h0] at hlaunch
      simp [noGpusResult] at hlaunch
    · rw [h1] at hlaunch
      simp [gpuNotFoundResult] at hlaunch
    · rcases afterSelect_cases osEnv pythonExe build inference_args child fs g
          with ⟨-, -, hc, -⟩ | ⟨-, -, -, hl⟩
      · rw [h2, hc]
      · rw [h2] at hlaunch
        rw [hl] at hlaunch
        cases hlaunch

/-- C10 witness: a cache-hit run whose inference child exits 7 still ends the
orchestrator with status 0. -/
theorem inference_exit_never_inspected_witness :
    (mainRun sampleEnv "python" failBuild (.success "0, RTX 3090, 24576 MiB")
        (some 0) [] [] (.exited 7) fsWithCache).map RunResult.exitCode
      = some 0 :=
  inference_exit_never_inspected.2 sampleEnv "python" failBuild
    (.success "0, RTX 3090, 24576 MiB") (some 0) [] [] (.exited 7) fsWithCache
    rfl

/-- C1 (amended): an explicit `--gpu` index absent from a non-empty probed
inventory makes the orchestrator report `Error: GPU index ... not found.` and
return with no cache or build side effect — but `main` returns normally, so
the process exit status is 0, not non-zero. -/
theorem gpu_not_found_aborts_cleanly (osEnv : Env) (pythonExe : String)
    (build : Env → Fs → Bool × Fs) (smi : SmiOutcome) (i : Int)
    (inference_args inputs : List String) (child : ChildOutcome) (fs : Fs)
    (hne : (get_gpus_from_nvidia_smi smi).1 ≠ [])
    (hnf : (get_gpus_from_nvidia_smi smi).1.find? (fun g => g.index == i)
            = none) :
    ∃ r : RunResult,
      mainRun osEnv pythonExe build smi (some i) inference_args inputs child fs
          = some r
      ∧ r.exitCode = 0
      ∧ r.buildInvoked = false
      ∧ r.inferenceLaunched = false
      ∧ r.fs = fs
      ∧ r.errors = ["Error: GPU index " ++ toString i ++ " not found."] := by
  cases hg : (get_gpus_from_nvidia_smi smi).1 with
  | nil => exact absurd hg hne
  | cons g0 rest =>
    rw [hg] at hnf
    refine ⟨gpuNotFoundResult fs i, ?_, rfl, rfl, rfl, rfl, rfl⟩
    unfold mainRun
    rw [hg]
    dsimp only
    rw [hnf]

/-- C1 (amended) witness: `--gpu 5` against a single probed device of
index 0. -/
theorem gpu_not_found_aborts_cleanly_witness :
    ∃ r : RunResult,
      mainRun sampleEnv "python" failBuild (.success "0,A,1") (some 5) [] []
          (.exited 0) emptyFs = some r
      ∧ r.exitCode = 0
      ∧ r.buildInvoked = false
      ∧ r.inferenceLaunched = false
      ∧ r.fs = emptyFs
      ∧ r.errors = ["Error: GPU index " ++ toString (5 : Int) ++ " not found."] :=
  gpu_not_found_aborts_cleanly sampleEnv "python" failBuild (.success "0,A,1")
    5 [] [] (.exited 0) emptyFs (by decide) (by decide)

/-- C1 counterexample: a concrete run with `--gpu 5` and only device index 0
probed matches no device, yet the process exit status is 0 — refuting the
claim that it exits non-zero. -/
theorem gpu_not_found_nonzero_exit_refuted :
    ((get_gpus_from_nvidia_smi (.success "0,A,1")).1.find?
        (fun g => g.index == (5 : Int)) = none)
    ∧ (mainRun sampleEnv "python" failBuild (.success "0,A,1") (some 5) [] []
        (.exited 0) emptyFs).map RunResult.exitCode = some 0 :=
  ⟨rfl, rfl⟩
